import Mathlib

/-!
Shallow embedding of the Crepid-deployable frontend (a React dashboard that
uploads three CSV files to a backend and renders the returned JSON document).
The definitions below translate the JavaScript source files:

* `src/unnamed/part_000` — the dashboard page: `handleUpload`, `formatCurrency`,
  `SectionTable`, and the list of rendered table sections;
* `src/unnamed/part_002` — the `CSVUploader` component and its `handleUpload`;
* `src/unnamed/part_004` — the upload client `uploadCSV` in `lib/api`;
* `src/frontend/src/components/FAQSection.jsx` — the FAQ accordion.

JavaScript numbers are modelled as rationals (all constants appearing in the
program and in the properties are exactly representable, and the threshold
comparisons involved are unaffected by float64 rounding at these magnitudes).
The browser platform (fetch, Intl.NumberFormat, React) is modelled explicitly:
a fetch outcome is a parameter, and a localized currency string is kept as a
structured value recording exactly the arguments the code passes to
`Intl.NumberFormat(...).format`.
-/

namespace Crepid

/-- Scalar JSON/JavaScript values that can appear in a table cell of the
dashboard result document (JSON has no NaN or undefined literal, but a cell
read from a record that lacks the key evaluates to `undefined`). -/
inductive JSValue where
  | jnull
  | jundefined
  | jbool (b : Bool)
  | jnum (q : ℚ)
  | jstr (s : String)
deriving DecidableEq

/-- JavaScript `v == null`, true exactly for `null` and `undefined`. -/
def JSValue.isNullish : JSValue → Bool
  | .jnull => true
  | .jundefined => true
  | _ => false

/-- JavaScript truthiness of a scalar value: `null`, `undefined`, `false`,
the number `0` and the empty string are falsy, everything else is truthy
(`NaN` cannot arise here: cell values come from parsed JSON). -/
def truthy : JSValue → Bool
  | .jnull => false
  | .jundefined => false
  | .jbool b => b
  | .jnum q => decide (q ≠ 0)
  | .jstr s => decide (s ≠ "")

/-- Numeric value of a digit list, `none` when some character is not a digit
(an empty list yields `0`, as in JavaScript ToNumber of an empty part). -/
def digitsVal (cs : List Char) : Option ℕ :=
  if cs.all Char.isDigit then some (cs.foldl (fun n c => 10 * n + (c.toNat - 48)) 0) else none

/-- ToNumber of a nonempty unsigned decimal numeral, integer part and optional
fractional part; `none` models NaN. -/
def parseUnsigned (cs : List Char) : Option ℚ :=
  if cs.isEmpty then none
  else
    match cs.findIdx? (fun c => c = '.') with
    | none => (digitsVal cs).map (fun n => (n : ℚ))
    | some i =>
      let ip := cs.take i
      let fp := cs.drop (i + 1)
      if ip.isEmpty && fp.isEmpty then none
      else if fp.contains '.' then none
      else
        match digitsVal ip, digitsVal fp with
        | some a, some b => some ((a : ℚ) + (b : ℚ) / (10 : ℚ) ^ fp.length)
        | _, _ => none

/-- Whitespace trimming on character lists, as ToNumber applies to its string
argument. -/
def jsTrim (cs : List Char) : List Char :=
  ((cs.dropWhile Char.isWhitespace).reverse.dropWhile Char.isWhitespace).reverse

/-- JavaScript `toLowerCase`, modelled as per-character lowering (column names
in this program are ASCII). -/
def jsToLower (s : String) : String :=
  ⟨s.data.map Char.toLower⟩

/-- JavaScript ToNumber on a string, restricted to plain decimal numerals
(optionally signed, optional fractional part); a trimmed empty string is `0`;
anything else — including exponent, hex and Infinity forms that never occur in
this program's data — is `none`, modelling NaN. -/
def strToNum (s : String) : Option ℚ :=
  match jsTrim s.data with
  | [] => some 0
  | '-' :: rest => (parseUnsigned rest).map Neg.neg
  | '+' :: rest => parseUnsigned rest
  | cs => parseUnsigned cs

/-- JavaScript ToNumber on a scalar value; `none` models NaN. -/
def jsToNumber : JSValue → Option ℚ
  | .jnull => some 0
  | .jundefined => none
  | .jbool b => some (if b then 1 else 0)
  | .jnum q => some q
  | .jstr s => strToNum s

/-- Checks whether the first character list occurs as a contiguous run of the
second, as JavaScript `String.prototype.includes` does. -/
def matchesAt : List Char → List Char → Bool
  | [], _ => true
  | _ :: _, [] => false
  | a :: as, b :: bs => a == b && matchesAt as bs

/-- JavaScript `haystack.includes(needle)` on character lists. -/
def containsSub (needle : List Char) : List Char → Bool
  | [] => needle.isEmpty
  | c :: rest => matchesAt needle (c :: rest) || containsSub needle rest

/-- Currency-column test of `SectionTable` (part_000 lines 214–217), applied
to the already lowercased column name: the name contains "cost", "gain",
"value" or "salary". -/
def isCurrencyColumn (lc : String) : Bool :=
  containsSub "cost".toList lc.toList || containsSub "gain".toList lc.toList ||
    containsSub "value".toList lc.toList || containsSub "salary".toList lc.toList

/-- The arguments the code hands to `Intl.NumberFormat(locale, {style:
"currency", currency, minimumFractionDigits, maximumFractionDigits}).format
(amount)`; the resulting localized currency string is determined by these.
`amount = none` models formatting NaN. -/
structure CurrencyString where
  locale : String
  currency : String
  amount : Option ℚ
  minimumFractionDigits : ℕ
  maximumFractionDigits : ℕ
deriving DecidableEq

/-- Displayed content of a table cell: either a raw scalar value rendered
as-is, or a localized currency string produced by `formatCurrency`. -/
inductive Disp where
  | val (v : JSValue)
  | cur (c : CurrencyString)
deriving DecidableEq

/-- Fixed INR→USD conversion rate of the dashboard (part_000 line 20,
`const usdRate = 83`). -/
def usdRate : ℚ := 83

/-- The dashboard's `formatCurrency` (part_000 lines 48–68): `null`/`undefined`
amounts give the empty string; with currency "USD" the amount is divided by
`usdRate` and formatted as en-US USD with 0 fraction digits; otherwise the
amount is formatted as en-IN INR with 0 fraction digits. -/
def formatCurrency (currency : String) (amount : JSValue) : Disp :=
  if amount.isNullish then .val (.jstr "")
  else if currency = "USD" then
    .cur ⟨"en-US", "USD", (jsToNumber amount).map (fun q => q / usdRate), 0, 0⟩
  else
    .cur ⟨"en-IN", "INR", jsToNumber amount, 0, 0⟩

/-- Numeric value a displayed cell takes in a JavaScript relational comparison
against a number. A localized currency string carries a currency symbol and
grouping separators, so ToNumber on it is NaN (`none`). -/
def dispToNumber : Disp → Option ℚ
  | .val v => jsToNumber v
  | .cur _ => none

/-- ROI background color (part_000 lines 223–228): `value <= 7` gives red,
otherwise `value <= 14` gives amber, otherwise green. A JavaScript relational
comparison is false when either side converts to NaN, so a NaN-valued cell
falls through both tests to green. -/
def roiBg (d : Disp) : String :=
  match dispToNumber d with
  | some q => if q ≤ 7 then "#F87171" else if q ≤ 14 then "#FBBF24" else "#34D399"
  | none => "#34D399"

/-- Inline style of a table cell, as assigned by `SectionTable`. -/
structure CellStyle where
  backgroundColor : String
  color : String
deriving DecidableEq

/-- A backend record: an ordered mapping from column names to scalar values
(JavaScript object key insertion order). -/
abbrev Record := List (String × JSValue)

/-- JavaScript property lookup `item[col]` on the underlying mapping:
the first binding of the key, `none` when the key is absent. -/
def lookupKey (item : Record) (col : String) : Option JSValue :=
  match item with
  | [] => none
  | (k, v) :: rest => if k = col then some v else lookupKey rest col

/-- JavaScript `item[col]`: the bound value, or `undefined` when the record
lacks the key. -/
def getVal (item : Record) (col : String) : JSValue :=
  (lookupKey item col).getD .jundefined

/-- A rendered table cell: its displayed content and its optional inline
style. -/
structure RenderedCell where
  content : Disp
  style : Option CellStyle
deriving DecidableEq

/-- Body of the cell-rendering callback of `SectionTable` (part_000 lines
207–234): read `item[col]`; when a currency formatter was supplied and the
lowercased column name contains "cost"/"gain"/"value"/"salary", replace a
truthy value by its formatted form (`value = value ? formatCurrency(value) :
value`); when the lowercased column name equals "roi", attach the
threshold-colored background style. -/
def renderCell (hasFmt : Bool) (currency : String) (item : Record) (col : String) :
    RenderedCell :=
  let value : JSValue := getVal item col
  let lc : String := jsToLower col
  let content : Disp :=
    if hasFmt && isCurrencyColumn lc then
      if truthy value then formatCurrency currency value else Disp.val value
    else Disp.val value
  let style : Option CellStyle :=
    if lc = "roi" then some ⟨roiBg content, "#000"⟩ else none
  ⟨content, style⟩

/-- A rendered table section: its title, its header row of column names, and
its body rows of rendered cells. -/
structure Table where
  title : String
  header : List String
  rows : List (List RenderedCell)
deriving DecidableEq

/-- `SectionTable` (part_000 lines 182–243): renders nothing when `items` is
null/undefined or empty; otherwise takes the columns from `Object.keys` of the
first record and renders one row per record, one cell per column.
`hasFmt` records whether the `formatCurrency` prop was passed at the call
site. -/
def SectionTable (title : String) (items : Option (List Record)) (hasFmt : Bool)
    (currency : String) : Option Table :=
  match items with
  | none => none
  | some [] => none
  | some (first :: rest) =>
    let columns := first.map Prod.fst
    some ⟨title, columns,
      (first :: rest).map (fun item => columns.map (renderCell hasFmt currency item))⟩

/-- The `hiring` member of the result document: a `NewHires` count and an
`employees` record sequence, each possibly absent. -/
structure Hiring where
  NewHires : Option JSValue
  employees : Option (List Record)
deriving DecidableEq

/-- The backend result document with its recognized top-level collections;
each is possibly absent. -/
structure DashboardResult where
  activities_with_metrics : Option (List Record)
  rebalance : Option (List Record)
  training : Option (List Record)
  appraisal : Option (List Record)
  risks : Option (List Record)
  hiring : Option Hiring
deriving DecidableEq

/-- The six table sections of the dashboard page in source order. -/
structure RenderedSections where
  activitiesSection : Option Table
  rebalanceSection : Option Table
  hiringSection : Option Table
  trainingSection : Option Table
  appraisalSection : Option Table
  risksSection : Option Table
deriving DecidableEq

/-- The tables section of the dashboard page (part_000 lines 122–129): one
`SectionTable` per named collection; the `formatCurrency` prop is passed for
the activities, hiring and training tables; the hiring table reads
`data.hiring?.employees`. -/
def renderTables (d : DashboardResult) (currency : String) : RenderedSections where
  activitiesSection :=
    SectionTable "Activities with Metrics" d.activities_with_metrics true currency
  rebalanceSection := SectionTable "Rebalance Suggestions" d.rebalance false currency
  hiringSection := SectionTable "Hiring" (d.hiring.bind Hiring.employees) true currency
  trainingSection := SectionTable "Training Recommendations" d.training true currency
  appraisalSection := SectionTable "Appraisal Suggestions" d.appraisal false currency
  risksSection := SectionTable "Risk Flags" d.risks false currency

/-- An opaque user-selected file handle; CSV content is never parsed by this
layer, so only an identity matters. -/
structure CSVFile where
  name : String
deriving DecidableEq

/-- One part of a multipart/form-data body, as appended by
`formData.append(name, file)`. -/
structure MultipartPart where
  name : String
  file : CSVFile
deriving DecidableEq

/-- An HTTP request as issued by `fetch(url, {method, body: formData})`. -/
structure Request where
  url : String
  method : String
  parts : List MultipartPart
deriving DecidableEq

/-- Outcome of awaiting `fetch` and `res.json()`: a success-range status with
a JSON body that parses to a result document; a non-success status (`!res.ok`);
a rejected fetch (network failure, with the platform error message); or a
rejected `res.json()` (parse failure, with the platform error message). -/
inductive FetchOutcome where
  | success (result : DashboardResult)
  | httpError (status : ℕ)
  | networkError (msg : String)
  | jsonError (msg : String)
deriving DecidableEq

/-- Every outcome other than success. -/
def FetchOutcome.isFailure : FetchOutcome → Bool
  | .success _ => false
  | _ => true

/-- Observable side effects of one click handler run: alert messages shown,
HTTP requests issued, and messages logged to the developer console. -/
structure Effects where
  alerts : List String
  requests : List Request
  consoleErrors : List String
deriving DecidableEq

namespace Api

/-- The single error value `uploadCSV` can raise: a JavaScript `Error`
carrying only a message, with no further structure. -/
structure UploadError where
  message : String
deriving DecidableEq

/-- The compiled-in backend endpoint of the upload client
(src/unnamed/part_004). -/
def backendURL : String := "https://crepid-deployable.onrender.com/api/upload-csv"

/-- The upload client `uploadCSV` (src/unnamed/part_004): appends the three
files as parts `roster`, `activities`, `skill_library`, issues one POST to
`backendURL`, throws `Error("Failed to upload CSVs")` on a non-success status,
propagates the platform error of a rejected fetch or a failed JSON parse, and
otherwise returns the parsed body verbatim. The first component is the list of
requests issued during the call. -/
def uploadCSV (rosterFile activitiesFile skillFile : CSVFile) (outcome : FetchOutcome) :
    List Request × Except UploadError DashboardResult :=
  let formData : List MultipartPart :=
    [⟨"roster", rosterFile⟩, ⟨"activities", activitiesFile⟩, ⟨"skill_library", skillFile⟩]
  ([⟨backendURL, "POST", formData⟩],
    match outcome with
    | .success d => .ok d
    | .httpError _ => .error ⟨"Failed to upload CSVs"⟩
    | .networkError msg => .error ⟨msg⟩
    | .jsonError msg => .error ⟨msg⟩)

end Api

namespace Dashboard

/-- The compiled-in backend endpoint of the dashboard page's inline fetch
(src/unnamed/part_000 line 34). -/
def uploadURL : String := "https://crepid-deployable.onrender.com/api/upload-csv"

/-- Component state of the dashboard page (part_000 lines 12–19): the three
selected files, the loading flag, the stored result document, and the selected
currency unit. -/
structure DashState where
  rosterFile : Option CSVFile
  activitiesFile : Option CSVFile
  skillsFile : Option CSVFile
  loading : Bool
  data : Option DashboardResult
  currency : String
deriving DecidableEq

/-- The dashboard page's `handleUpload` (part_000 lines 22–46), as a function
from the pre-click state and the fetch outcome to the post-run state and the
observable effects. When a file is missing it alerts and returns with nothing
else done. Otherwise it sets loading, posts the three files (parts `roster`,
`activities`, `skills`) to `uploadURL`, stores the parsed result on success,
and on any failure logs to the console and alerts; `setLoading(false)` runs
after the try/catch on both paths, so the final loading flag is false. -/
def handleUpload (s : DashState) (outcome : FetchOutcome) : DashState × Effects :=
  match s.rosterFile, s.activitiesFile, s.skillsFile with
  | some roster, some activities, some skills =>
    let req : Request :=
      ⟨uploadURL, "POST", [⟨"roster", roster⟩, ⟨"activities", activities⟩, ⟨"skills", skills⟩]⟩
    match outcome with
    | .success result =>
      ({ s with loading := false, data := some result }, ⟨[], [req], []⟩)
    | .httpError status =>
      ({ s with loading := false },
        ⟨["Upload failed! Check console for details."], [req],
          ["Server responded with status " ++ toString status]⟩)
    | .networkError msg =>
      ({ s with loading := false },
        ⟨["Upload failed! Check console for details."], [req], [msg]⟩)
    | .jsonError msg =>
      ({ s with loading := false },
        ⟨["Upload failed! Check console for details."], [req], [msg]⟩)
  | _, _, _ => (s, ⟨["Please select all three files!"], [], []⟩)

end Dashboard

namespace Uploader

/-- State visible to the `CSVUploader` component (src/unnamed/part_002): its
local loading flag and the shared `dashboardData` slot of the application
context (src/unnamed/part_001). -/
structure State where
  loading : Bool
  dashboardData : Option DashboardResult
deriving DecidableEq

/-- The `CSVUploader`'s `handleUpload` (part_002 lines 12–31): reads the three
form file inputs, alerts and stops when one is missing, otherwise calls
`Api.uploadCSV`; on success it stores the result in the shared context and
alerts success, on a thrown error it logs and alerts; `setLoading(false)` runs
in the `finally` block on both paths. -/
def handleUpload (s : State) (roster activities skill_library : Option CSVFile)
    (outcome : FetchOutcome) : State × Effects :=
  match roster, activities, skill_library with
  | some r, some a, some k =>
    let ru := Api.uploadCSV r a k outcome
    match ru.2 with
    | .ok d =>
      ({ loading := false, dashboardData := some d },
        ⟨["CSV files uploaded and processed successfully!"], ru.1, []⟩)
    | .error e =>
      ({ s with loading := false }, ⟨["Error uploading files"], ru.1, [e.message]⟩)
  | _, _, _ => (s, ⟨["All files required!"], [], []⟩)

end Uploader

/-- One FAQ entry passed to the accordion. -/
structure FAQItem where
  question : String
  answer : String
deriving DecidableEq

/-- One rendered accordion entry: the header is always shown, the answer body
only when the entry is expanded. -/
structure RenderedFAQ where
  question : String
  answer : String
  expanded : Bool
deriving DecidableEq

/-- Initial accordion state (FAQSection.jsx line 8): `useState(null)`. -/
def initialOpenIndex : Option ℕ := none

/-- The accordion's `toggleFAQ` (FAQSection.jsx lines 10–12): clicking index
`i` closes it when it is the open one, otherwise opens it. -/
def toggleFAQ (openIndex : Option ℕ) (index : ℕ) : Option ℕ :=
  if openIndex = some index then none else some index

/-- The accordion's `faqs.map((faq, index) => ...)` body starting at index
`k`: an entry is expanded exactly when `openIndex === index`
(FAQSection.jsx lines 39–43). -/
def renderFAQFrom (faqs : List FAQItem) (openIndex : Option ℕ) (k : ℕ) :
    List RenderedFAQ :=
  match faqs with
  | [] => []
  | f :: rest =>
    ⟨f.question, f.answer, decide (openIndex = some k)⟩ :: renderFAQFrom rest openIndex (k + 1)

/-- The rendered accordion entries of `FAQSection`. -/
def renderFAQ (faqs : List FAQItem) (openIndex : Option ℕ) : List RenderedFAQ :=
  renderFAQFrom faqs openIndex 0

/-! Theorems. -/

/-- Changing a record outside the looked-up column does not change the
rendered cell: `renderCell` reads the record only through `item[col]`. -/
lemma renderCell_lookup_congr (fmt : Bool) (cur : String) (r r' : Record) (col : String)
    (h : lookupKey r col = lookupKey r' col) :
    renderCell fmt cur r col = renderCell fmt cur r' col := by
  unfold renderCell getVal
  rw [h]

/-- A cell whose record lacks the column's key renders the raw `undefined`
value, hence a blank cell. -/
lemma renderCell_content_undef (fmt : Bool) (cur : String) (r : Record) (col : String)
    (h : lookupKey r col = none) :
    (renderCell fmt cur r col).content = Disp.val .jundefined := by
  unfold renderCell getVal
  rw [h]
  simp [truthy]

/-- C1: the claim states that, in a currency-named column with a formatter
supplied, exactly the empty/null cell values are left unformatted. This is
false on the code: `value = value ? formatCurrency(value) : value` tests
JavaScript truthiness, so the number `0` — neither empty nor null — is also
left unformatted and displayed as-is. -/
theorem currency_zero_cell_unformatted :
    (renderCell true "INR" [("Cost", JSValue.jnum 0)] "Cost").content = Disp.val (.jnum 0) ∧
    (renderCell true "INR" [("Cost", JSValue.jnum 0)] "Cost").content ≠
      formatCurrency "INR" (JSValue.jnum 0) ∧
    JSValue.jnum 0 ≠ .jnull ∧ JSValue.jnum 0 ≠ .jundefined ∧ JSValue.jnum 0 ≠ .jstr "" := by
  decide

/-- C1 (amended): in a column whose lowercased name contains "cost", "gain",
"value" or "salary", with a currency formatter supplied, a cell value is
formatted as a localized currency string in the currently selected unit
exactly when it is truthy; the falsy values — null, undefined, false, the
number 0 and the empty string — are left unformatted and displayed as-is. -/
theorem currency_column_truthy_formatting (cur col : String) (r : Record)
    (hcol : isCurrencyColumn (jsToLower col) = true) :
    (renderCell true cur r col).content =
      (if truthy (getVal r col) then formatCurrency cur (getVal r col)
       else Disp.val (getVal r col)) ∧
    (∀ v : JSValue, truthy v = false ↔
      (v = .jnull ∨ v = .jundefined ∨ v = .jbool false ∨ v = .jnum 0 ∨ v = .jstr "")) ∧
    (∀ v : JSValue, truthy v = true →
      ∃ c : CurrencyString, formatCurrency cur v = Disp.cur c ∧
        c.currency = (if cur = "USD" then "USD" else "INR") ∧
        c.minimumFractionDigits = 0 ∧ c.maximumFractionDigits = 0) := by
  refine ⟨?_, ?_, ?_⟩
  · simp [renderCell, hcol]
  · intro v
    cases v <;> simp [truthy]
  · intro v hv
    have hnn : v.isNullish = false := by
      cases v <;> simp_all [truthy, JSValue.isNullish]
    by_cases hc : cur = "USD" <;>
      simp [formatCurrency, hnn, hc]

/-- Witness for C1 (amended): a truthy value 500 in a "TrainingCost" column
with the USD unit selected is displayed as the en-US USD currency string of
500 / 83. -/
theorem currency_column_truthy_formatting_witness :
    (renderCell true "USD" [("TrainingCost", JSValue.jnum 500)] "TrainingCost").content =
      Disp.cur ⟨"en-US", "USD", some (500 / 83), 0, 0⟩ := by
  have h := (currency_column_truthy_formatting "USD" "TrainingCost"
      [("TrainingCost", JSValue.jnum 500)] (by decide)).1
  rw [h]
  have ht : truthy (getVal [("TrainingCost", JSValue.jnum 500)] "TrainingCost") = true := by
    decide
  rw [ht]
  rfl

/-- C2: a cell of a column whose name lowercases to "roi" gets the background
color keyed by its numeric value, inclusive on the lower side: at most 7 red,
above 7 and at most 14 amber, above 14 green; in particular 7 is red, 7.01, 8
and 14 are amber, and 14.01 and 15 are green. -/
theorem roi_color_thresholds (fmt : Bool) (cur col : String) (r : Record) (q : ℚ)
    (hcol : jsToLower col = "roi") (hval : lookupKey r col = some (.jnum q)) :
    (renderCell fmt cur r col).style =
      some ⟨if q ≤ 7 then "#F87171" else if q ≤ 14 then "#FBBF24" else "#34D399", "#000"⟩ ∧
    (renderCell true "INR" [("ROI", JSValue.jnum 7)] "ROI").style =
      some ⟨"#F87171", "#000"⟩ ∧
    (renderCell true "INR" [("ROI", JSValue.jnum (701 / 100))] "ROI").style =
      some ⟨"#FBBF24", "#000"⟩ ∧
    (renderCell true "INR" [("ROI", JSValue.jnum 8)] "ROI").style =
      some ⟨"#FBBF24", "#000"⟩ ∧
    (renderCell true "INR" [("ROI", JSValue.jnum 14)] "ROI").style =
      some ⟨"#FBBF24", "#000"⟩ ∧
    (renderCell true "INR" [("ROI", JSValue.jnum (1401 / 100))] "ROI").style =
      some ⟨"#34D399", "#000"⟩ ∧
    (renderCell true "INR" [("ROI", JSValue.jnum 15)] "ROI").style =
      some ⟨"#34D399", "#000"⟩ := by
  have hcc : isCurrencyColumn "roi" = false := by decide
  have hR : jsToLower "ROI" = "roi" := by decide
  refine ⟨?_, ?_, ?_, ?_, ?_, ?_, ?_⟩
  · simp [renderCell, getVal, hcol, hval, hcc, roiBg, dispToNumber, jsToNumber]
  all_goals
    simp [renderCell, getVal, lookupKey, hR, hcc, roiBg, dispToNumber, jsToNumber]
  all_goals norm_num

/-- Witness for C2: a value of 3 in a lowercase "roi" column is colored
red. -/
theorem roi_color_thresholds_witness :
    (renderCell false "INR" [("roi", JSValue.jnum 3)] "roi").style =
      some ⟨"#F87171", "#000"⟩ := by
  have h := (roi_color_thresholds false "INR" "roi" [("roi", JSValue.jnum 3)] 3
      (by decide) (by decide)).1
  rw [h]
  norm_num

/-- C5: with the USD unit selected, `formatCurrency` formats a numeric amount
divided by the fixed rate `usdRate = 83` as an en-US USD currency string, and
with the INR unit it formats the amount itself as an en-IN INR currency
string; in particular 8300 is displayed with magnitude 8300 in INR and
magnitude 100 in USD, and a null amount gives the empty string. -/
theorem usd_divides_by_fixed_rate :
    usdRate = 83 ∧
    (∀ q : ℚ, formatCurrency "USD" (.jnum q) =
      Disp.cur ⟨"en-US", "USD", some (q / 83), 0, 0⟩) ∧
    (∀ q : ℚ, formatCurrency "INR" (.jnum q) =
      Disp.cur ⟨"en-IN", "INR", some q, 0, 0⟩) ∧
    formatCurrency "INR" (.jnum 8300) = Disp.cur ⟨"en-IN", "INR", some 8300, 0, 0⟩ ∧
    formatCurrency "USD" (.jnum 8300) = Disp.cur ⟨"en-US", "USD", some 100, 0, 0⟩ ∧
    formatCurrency "INR" JSValue.jnull = Disp.val (.jstr "") := by
  refine ⟨rfl, fun q => rfl, fun q => rfl, rfl, ?_, rfl⟩
  simp [formatCurrency, jsToNumber, usdRate, JSValue.isNullish]
  norm_num

/-- C10: in an "roi" column, a row that lacks the key renders the raw
`undefined` value with the success-green background — both threshold
comparisons are false for undefined — so a missing ROI is displayed with the
same color as a high ROI such as 100. -/
theorem missing_roi_rendered_green (fmt : Bool) (cur : String) (r : Record)
    (h : lookupKey r "roi" = none) :
    renderCell fmt cur r "roi" = ⟨Disp.val .jundefined, some ⟨"#34D399", "#000"⟩⟩ ∧
    (renderCell fmt cur r "roi").style = (renderCell fmt cur [("roi", JSValue.jnum 100)] "roi").style := by
  have h1 : jsToLower "roi" = "roi" := by decide
  have hcc : isCurrencyColumn "roi" = false := by decide
  constructor
  · simp [renderCell, getVal, h, h1, hcc, truthy, roiBg, dispToNumber, jsToNumber]
  · simp [renderCell, getVal, lookupKey, h, h1, hcc, truthy, roiBg, dispToNumber, jsToNumber]
    norm_num

/-- Witness for C10: a row holding only a "Name" cell gets the green ROI
background in the "roi" column. -/
theorem missing_roi_rendered_green_witness :
    renderCell false "INR" [("Name", JSValue.jstr "x")] "roi" =
      ⟨Disp.val .jundefined, some ⟨"#34D399", "#000"⟩⟩ :=
  (missing_roi_rendered_green false "INR" [("Name", JSValue.jstr "x")] (by decide)).1

/-- C3: a non-empty record collection renders with headers exactly the keys
of the first record in that record's key order, one row per record with one
cell per header; a record missing a key renders a blank (undefined) cell in
that column; and a record's extra keys are invisible: two records that agree
on the first record's keys render identical rows, whatever other keys they
hold. -/
theorem table_headers_from_first_record (title : String) (fmt : Bool) (cur : String)
    (first : Record) (rest : List Record) :
    SectionTable title (some (first :: rest)) fmt cur =
      some ⟨title, first.map Prod.fst,
        (first :: rest).map (fun r => (first.map Prod.fst).map (renderCell fmt cur r))⟩ ∧
    (∀ (r : Record) (col : String), lookupKey r col = none →
      (renderCell fmt cur r col).content = Disp.val .jundefined) ∧
    (∀ r r' : Record,
      (∀ col ∈ first.map Prod.fst, lookupKey r col = lookupKey r' col) →
      (first.map Prod.fst).map (renderCell fmt cur r) =
        (first.map Prod.fst).map (renderCell fmt cur r')) := by
  refine ⟨rfl, fun r col h => renderCell_content_undef fmt cur r col h, ?_⟩
  intro r r' h
  apply List.map_congr_left
  intro col hcol
  exact renderCell_lookup_congr fmt cur r r' col (h col hcol)

/-- Witness for C3: under a single header "a", a record lacking "a" renders a
blank cell, and a record carrying an extra key "b" renders the same row as the
record without it. -/
theorem table_headers_from_first_record_witness :
    (renderCell false "INR" ([] : Record) "a").content = Disp.val .jundefined ∧
    ([("a", JSValue.jnum 1)].map Prod.fst).map
        (renderCell false "INR" [("a", JSValue.jnum 1), ("b", JSValue.jnum 2)]) =
      ([("a", JSValue.jnum 1)].map Prod.fst).map
        (renderCell false "INR" [("a", JSValue.jnum 1)]) :=
  ⟨(table_headers_from_first_record "T" false "INR" [("a", JSValue.jnum 1)] [[]]).2.1
      [] "a" rfl,
    (table_headers_from_first_record "T" false "INR" [("a", JSValue.jnum 1)] []).2.2
      [("a", JSValue.jnum 1), ("b", JSValue.jnum 2)] [("a", JSValue.jnum 1)] (by decide)⟩

/-- C4: a named collection of the result document that is absent or an empty
sequence makes its table section render nothing at all — the section is
`none`, with no heading, table or placeholder. -/
theorem empty_or_absent_section_renders_nothing (d : DashboardResult) (cur : String) :
    ((d.activities_with_metrics = none ∨ d.activities_with_metrics = some []) →
      (renderTables d cur).activitiesSection = none) ∧
    ((d.rebalance = none ∨ d.rebalance = some []) →
      (renderTables d cur).rebalanceSection = none) ∧
    ((d.hiring.bind Hiring.employees = none ∨ d.hiring.bind Hiring.employees = some []) →
      (renderTables d cur).hiringSection = none) ∧
    ((d.training = none ∨ d.training = some []) →
      (renderTables d cur).trainingSection = none) ∧
    ((d.appraisal = none ∨ d.appraisal = some []) →
      (renderTables d cur).appraisalSection = none) ∧
    ((d.risks = none ∨ d.risks = some []) →
      (renderTables d cur).risksSection = none) := by
  refine ⟨?_, ?_, ?_, ?_, ?_, ?_⟩ <;>
    (rintro (h | h) <;> simp [renderTables, SectionTable, h])

/-- A result document whose collections are each absent or empty. -/
def emptyDoc : DashboardResult :=
  ⟨none, some [], none, some [], none, some ⟨none, some []⟩⟩

/-- Witness for C4: on `emptyDoc` every one of the six table sections renders
nothing. -/
theorem empty_or_absent_section_renders_nothing_witness :
    (renderTables emptyDoc "INR").activitiesSection = none ∧
    (renderTables emptyDoc "INR").rebalanceSection = none ∧
    (renderTables emptyDoc "INR").hiringSection = none ∧
    (renderTables emptyDoc "INR").trainingSection = none ∧
    (renderTables emptyDoc "INR").appraisalSection = none ∧
    (renderTables emptyDoc "INR").risksSection = none :=
  ⟨(empty_or_absent_section_renders_nothing emptyDoc "INR").1 (Or.inl rfl),
    (empty_or_absent_section_renders_nothing emptyDoc "INR").2.1 (Or.inr rfl),
    (empty_or_absent_section_renders_nothing emptyDoc "INR").2.2.1 (Or.inr rfl),
    (empty_or_absent_section_renders_nothing emptyDoc "INR").2.2.2.1 (Or.inl rfl),
    (empty_or_absent_section_renders_nothing emptyDoc "INR").2.2.2.2.1 (Or.inr rfl),
    (empty_or_absent_section_renders_nothing emptyDoc "INR").2.2.2.2.2 (Or.inl rfl)⟩

/-- C6: a failed upload (non-success status, network failure, or JSON parse
failure) alerts the user, clears the loading flag, and leaves the stored
result data unchanged; the stored data changes only on a successful outcome.
The same holds for the `CSVUploader` variant and its shared `dashboardData`
slot. -/
theorem failed_upload_preserves_data (s : Dashboard.DashState) (outcome : FetchOutcome)
    (rf af kf : CSVFile)
    (hr : s.rosterFile = some rf) (ha : s.activitiesFile = some af)
    (hk : s.skillsFile = some kf) (hfail : outcome.isFailure = true) :
    ((Dashboard.handleUpload s outcome).1.data = s.data ∧
      (Dashboard.handleUpload s outcome).1.loading = false ∧
      (Dashboard.handleUpload s outcome).2.alerts =
        ["Upload failed! Check console for details."]) ∧
    (∀ (s' : Dashboard.DashState) (o : FetchOutcome),
      (Dashboard.handleUpload s' o).1.data ≠ s'.data → ∃ d, o = .success d) ∧
    (∀ (us : Uploader.State) (o : FetchOutcome), o.isFailure = true →
      (Uploader.handleUpload us (some rf) (some af) (some kf) o).1.dashboardData =
        us.dashboardData ∧
      (Uploader.handleUpload us (some rf) (some af) (some kf) o).1.loading = false ∧
      (Uploader.handleUpload us (some rf) (some af) (some kf) o).2.alerts =
        ["Error uploading files"]) := by
  refine ⟨?_, ?_, ?_⟩
  · cases outcome with
    | success d => simp [FetchOutcome.isFailure] at hfail
    | httpError st => simp [Dashboard.handleUpload, hr, ha, hk]
    | networkError m => simp [Dashboard.handleUpload, hr, ha, hk]
    | jsonError m => simp [Dashboard.handleUpload, hr, ha, hk]
  · intro s' o hne
    cases o with
    | success d => exact ⟨d, rfl⟩
    | httpError st =>
      exfalso; apply hne
      cases hr' : s'.rosterFile <;> cases ha' : s'.activitiesFile <;>
        cases hk' : s'.skillsFile <;> simp [Dashboard.handleUpload, hr', ha', hk']
    | networkError m =>
      exfalso; apply hne
      cases hr' : s'.rosterFile <;> cases ha' : s'.activitiesFile <;>
        cases hk' : s'.skillsFile <;> simp [Dashboard.handleUpload, hr', ha', hk']
    | jsonError m =>
      exfalso; apply hne
      cases hr' : s'.rosterFile <;> cases ha' : s'.activitiesFile <;>
        cases hk' : s'.skillsFile <;> simp [Dashboard.handleUpload, hr', ha', hk']
  · intro us o ho
    cases o with
    | success d => simp [FetchOutcome.isFailure] at ho
    | httpError st => simp [Uploader.handleUpload, Api.uploadCSV]
    | networkError m => simp [Uploader.handleUpload, Api.uploadCSV]
    | jsonError m => simp [Uploader.handleUpload, Api.uploadCSV]

/-- Witness for C6: a simulated HTTP 500 leaves a previously stored document
in place, clears loading, and alerts. -/
theorem failed_upload_preserves_data_witness :
    (Dashboard.handleUpload
        ⟨some ⟨"r.csv"⟩, some ⟨"a.csv"⟩, some ⟨"s.csv"⟩, true, some emptyDoc, "INR"⟩
        (.httpError 500)).1.data = some emptyDoc ∧
    (Dashboard.handleUpload
        ⟨some ⟨"r.csv"⟩, some ⟨"a.csv"⟩, some ⟨"s.csv"⟩, true, some emptyDoc, "INR"⟩
        (.httpError 500)).1.loading = false :=
  ⟨((failed_upload_preserves_data
      ⟨some ⟨"r.csv"⟩, some ⟨"a.csv"⟩, some ⟨"s.csv"⟩, true, some emptyDoc, "INR"⟩
      (.httpError 500) ⟨"r.csv"⟩ ⟨"a.csv"⟩ ⟨"s.csv"⟩ rfl rfl rfl rfl).1).1,
    ((failed_upload_preserves_data
      ⟨some ⟨"r.csv"⟩, some ⟨"a.csv"⟩, some ⟨"s.csv"⟩, true, some emptyDoc, "INR"⟩
      (.httpError 500) ⟨"r.csv"⟩ ⟨"a.csv"⟩ ⟨"s.csv"⟩ rfl rfl rfl rfl).1).2.1⟩

/-- C7: when one of the three files is not selected, the click alerts, leaves
the whole component state unchanged, and issues no network request; a request
is issued exactly when all three files are selected. The same holds for the
`CSVUploader` variant. -/
theorem missing_file_blocks_upload (s : Dashboard.DashState) (outcome : FetchOutcome)
    (h : s.rosterFile = none ∨ s.activitiesFile = none ∨ s.skillsFile = none) :
    Dashboard.handleUpload s outcome =
      (s, ⟨["Please select all three files!"], [], []⟩) ∧
    (∀ (s' : Dashboard.DashState) (o : FetchOutcome),
      (Dashboard.handleUpload s' o).2.requests ≠ [] ↔
        (s'.rosterFile ≠ none ∧ s'.activitiesFile ≠ none ∧ s'.skillsFile ≠ none)) ∧
    (∀ (us : Uploader.State) (r a k : Option CSVFile) (o : FetchOutcome),
      (r = none ∨ a = none ∨ k = none) →
      Uploader.handleUpload us r a k o = (us, ⟨["All files required!"], [], []⟩)) := by
  refine ⟨?_, ?_, ?_⟩
  · cases hr : s.rosterFile <;> cases ha : s.activitiesFile <;> cases hk : s.skillsFile <;>
      simp_all [Dashboard.handleUpload]
  · intro s' o
    cases hr : s'.rosterFile <;> cases ha : s'.activitiesFile <;> cases hk : s'.skillsFile <;>
      cases o <;> simp [Dashboard.handleUpload, hr, ha, hk]
  · intro us r a k o hmiss
    cases r <;> cases a <;> cases k <;> simp_all [Uploader.handleUpload]

/-- Witness for C7: with only two of three files selected, the click is a
no-op that alerts and issues no request. -/
theorem missing_file_blocks_upload_witness :
    Dashboard.handleUpload
        ⟨some ⟨"r.csv"⟩, some ⟨"a.csv"⟩, none, false, none, "INR"⟩ (.httpError 500) =
      (⟨some ⟨"r.csv"⟩, some ⟨"a.csv"⟩, none, false, none, "INR"⟩,
        ⟨["Please select all three files!"], [], []⟩) :=
  (missing_file_blocks_upload
    ⟨some ⟨"r.csv"⟩, some ⟨"a.csv"⟩, none, false, none, "INR"⟩ (.httpError 500)
    (Or.inr (Or.inr rfl))).1

/-- C8: for any three files, `uploadCSV` issues exactly one POST to the fixed
backend URL whose multipart body has exactly the parts `roster`, `activities`
and `skill_library`; on a success outcome it returns the parsed body verbatim,
and every failure kind raises the single message-carrying error value. -/
theorem uploadCSV_single_post_and_generic_error (r a k : CSVFile) (outcome : FetchOutcome) :
    (Api.uploadCSV r a k outcome).1 =
      [⟨Api.backendURL, "POST",
        [⟨"roster", r⟩, ⟨"activities", a⟩, ⟨"skill_library", k⟩]⟩] ∧
    Api.backendURL = "https://crepid-deployable.onrender.com/api/upload-csv" ∧
    (∀ d, outcome = .success d → (Api.uploadCSV r a k outcome).2 = .ok d) ∧
    (outcome.isFailure = true →
      ∃ msg, (Api.uploadCSV r a k outcome).2 = .error ⟨msg⟩) := by
  refine ⟨rfl, rfl, ?_, ?_⟩
  · rintro d rfl
    rfl
  · intro h
    cases outcome with
    | success d => simp [FetchOutcome.isFailure] at h
    | httpError st => exact ⟨"Failed to upload CSVs", rfl⟩
    | networkError m => exact ⟨m, rfl⟩
    | jsonError m => exact ⟨m, rfl⟩

/-- Witness for C8: on a success outcome the parsed document is returned
verbatim, and the single request carries the three named parts. -/
theorem uploadCSV_single_post_and_generic_error_witness :
    (Api.uploadCSV ⟨"r.csv"⟩ ⟨"a.csv"⟩ ⟨"s.csv"⟩ (.success emptyDoc)).2 = .ok emptyDoc ∧
    (Api.uploadCSV ⟨"r.csv"⟩ ⟨"a.csv"⟩ ⟨"s.csv"⟩ (.success emptyDoc)).1 =
      [⟨Api.backendURL, "POST",
        [⟨"roster", ⟨"r.csv"⟩⟩, ⟨"activities", ⟨"a.csv"⟩⟩, ⟨"skill_library", ⟨"s.csv"⟩⟩]⟩] := by
  have hfail := (uploadCSV_single_post_and_generic_error ⟨"r.csv"⟩ ⟨"a.csv"⟩ ⟨"s.csv"⟩
    (.httpError 500)).2.2.2 rfl
  exact ⟨(uploadCSV_single_post_and_generic_error ⟨"r.csv"⟩ ⟨"a.csv"⟩ ⟨"s.csv"⟩
      (.success emptyDoc)).2.2.1 emptyDoc rfl,
    (uploadCSV_single_post_and_generic_error ⟨"r.csv"⟩ ⟨"a.csv"⟩ ⟨"s.csv"⟩
      (.success emptyDoc)).1⟩

/-- When the open index is `some m` with `m` below every index in the list,
no rendered entry is expanded. -/
lemma renderFAQFrom_not_expanded (faqs : List FAQItem) (m k : ℕ) (h : m < k) :
    ∀ it ∈ renderFAQFrom faqs (some m) k, it.expanded = false := by
  induction faqs generalizing k with
  | nil => simp [renderFAQFrom]
  | cons f t ih =>
    intro it hit
    simp only [renderFAQFrom, List.mem_cons] at hit
    rcases hit with rfl | hit
    · simp [Nat.ne_of_lt h]
    · exact ih (k + 1) (Nat.lt_succ_of_lt h) it hit

/-- At most one rendered accordion entry is expanded, whatever the open
index. -/
lemma renderFAQFrom_countP_le_one (faqs : List FAQItem) (o : Option ℕ) (k : ℕ) :
    (renderFAQFrom faqs o k).countP (fun it => it.expanded) ≤ 1 := by
  induction faqs generalizing k with
  | nil => simp [renderFAQFrom]
  | cons f t ih =>
    by_cases h : o = some k
    · subst h
      have hz : (renderFAQFrom t (some k) (k + 1)).countP (fun it => it.expanded) = 0 := by
        rw [List.countP_eq_zero]
        intro a ha
        simp [renderFAQFrom_not_expanded t k (k + 1) (Nat.lt_succ_self k) a ha]
      simp [renderFAQFrom, List.countP_cons, hz]
    · simp [renderFAQFrom, List.countP_cons, h]
      exact ih (k + 1)

/-- C9: the accordion state is a single nullable open index that starts out
null; at most one entry is rendered expanded; clicking the open entry's header
collapses it, and clicking any other header opens exactly that entry. -/
theorem faq_at_most_one_open :
    initialOpenIndex = none ∧
    (∀ (faqs : List FAQItem) (o : Option ℕ),
      (renderFAQ faqs o).countP (fun it => it.expanded) ≤ 1) ∧
    (∀ i : ℕ, toggleFAQ (some i) i = none) ∧
    (∀ (o : Option ℕ) (i : ℕ), o ≠ some i → toggleFAQ o i = some i) :=
  ⟨rfl, fun faqs o => renderFAQFrom_countP_le_one faqs o 0,
    fun i => by simp [toggleFAQ],
    fun o i h => by simp [toggleFAQ, h]⟩

/-- Witness for C9: with entry 0 open, clicking entry 1 opens entry 1. -/
theorem faq_at_most_one_open_witness : toggleFAQ (some 0) 1 = some 1 :=
  faq_at_most_one_open.2.2.2 (some 0) 1 (by decide)

end Crepid
